import Mathlib

/-!
Shallow embedding of the load-test plan generator and metrics interpreter
(src/models.py, src/interpreter.py, src/generator.py, src/loader.py).
Python floats are modelled as rationals, Python ints as integers, Python
dicts as association lists, and fallible operations return Except/Option.
-/

namespace Perf

/-- Multiplication on ℚ written through mkRat so that it reduces inside
the kernel; agrees with ℚ multiplication (ratMul_eq below). -/
def ratMul (a b : ℚ) : ℚ :=
  mkRat (a.num * b.num) (a.den * b.den)

/-- Subtraction on ℚ written through mkRat so that it reduces inside the
kernel. -/
def ratSub (a b : ℚ) : ℚ :=
  mkRat (a.num * (b.den : Int) - b.num * (a.den : Int)) (a.den * b.den)

/-- Python str.startswith, via a list-prefix check. -/
def pyStartsWith (s p : String) : Bool :=
  p.data.isPrefixOf s.data

/-- Python str.strip(): drop leading and trailing whitespace. -/
def pyStrip (s : String) : String :=
  ⟨((s.data.dropWhile Char.isWhitespace).reverse.dropWhile Char.isWhitespace).reverse⟩

/-- Round-half-even on a rational, as Python does for a format specifier
such as .1f (CPython rounds the decimal value half to even). -/
def bankersRound (q : ℚ) : Int :=
  let n := q.floor
  let frac := ratSub q (mkRat n 1)
  if frac < mkRat 1 2 then n
  else if mkRat 1 2 < frac then n + 1
  else if n % 2 = 0 then n else n + 1

/-- Left-pad a digit string with zeros to the given length. -/
def padZeros (s : String) (len : Nat) : String :=
  (List.replicate (len - s.length) '0').asString ++ s

/-- Fixed-point decimal rendering used for Python format specifiers
such as .1f / .2f / .0f. -/
def fmtFixed (prec : Nat) (q : ℚ) : String :=
  let scaled := bankersRound (ratMul q (mkRat ((10 ^ prec : Nat) : Int) 1))
  let sign := if scaled < 0 then "-" else ""
  let a := scaled.natAbs
  if prec = 0 then sign ++ toString a
  else
    let base := (10 : Nat) ^ prec
    sign ++ toString (a / base) ++ "." ++ padZeros (toString (a % base)) prec

/-- Python str() applied to a numeric threshold; exact for integral values,
abstracted to six decimal places otherwise (CPython shortest-repr is not
modelled; no verified claim depends on this rendering). -/
def ratStr (q : ℚ) : String :=
  if q.den = 1 then toString q.num ++ ".0" else fmtFixed 6 q

/-- models.MetricsSummary: nine optional float fields (None when absent). -/
structure MetricsSummary where
  p50_ms : Option ℚ := none
  p90_ms : Option ℚ := none
  p95_ms : Option ℚ := none
  p99_ms : Option ℚ := none
  error_rate : Option ℚ := none
  throughput_rps : Option ℚ := none
  cpu_percent : Option ℚ := none
  memory_percent : Option ℚ := none
  gc_pause_ms : Option ℚ := none
deriving DecidableEq, Repr

/-- models.SLO, with the numeric latency thresholds its models.py comment
documents (latency_ms maps percentile labels to thresholds in ms). -/
structure SLO where
  latency_ms : List (String × ℚ) := []
  error_rate : ℚ := mkRat 1 100
deriving DecidableEq, Repr

/-- One entry of InterpretationResult.checks (a metric/result/detail dict). -/
structure CheckEntry where
  metric : String
  result : String
  detail : String
deriving DecidableEq, Repr

/-- models.InterpretationResult. -/
structure InterpretationResult where
  status : String
  narrative : String
  checks : List CheckEntry := []
  risks : List String := []
deriving DecidableEq, Repr

/-- Python slo.latency_ms.get(pct). -/
def sloGet (slo : SLO) (pct : String) : Option ℚ :=
  (slo.latency_ms.find? (fun kv => kv.1 == pct)).map (fun kv => kv.2)

/-- One iteration of the latency-check loop of interpreter.interpret:
the accumulator carries the checks built so far and the any_fail flag. -/
def latencyStep (slo : SLO) (acc : List CheckEntry × Bool)
    (pv : String × Option ℚ) : List CheckEntry × Bool :=
  match sloGet slo pv.1 with
  | none => acc
  | some threshold =>
    match pv.2 with
    | none =>
      (acc.1 ++ [{ metric := "latency_" ++ pv.1, result := "skip",
                   detail := pv.1 ++ " latency not provided in metrics" }], acc.2)
    | some value =>
      let passed := decide (value ≤ threshold)
      (acc.1 ++ [{ metric := "latency_" ++ pv.1,
                   result := if passed then "pass" else "fail",
                   detail := pv.1 ++ " latency: " ++ fmtFixed 1 value
                     ++ " ms (threshold: " ++ ratStr threshold ++ " ms)" }],
       acc.2 || !passed)

/-- The latency_fields dict of interpreter.interpret, in insertion order. -/
def latency_fields (metrics : MetricsSummary) : List (String × Option ℚ) :=
  [("p95", metrics.p95_ms), ("p99", metrics.p99_ms)]

/-- interpreter._build_narrative. -/
def _build_narrative (status : String) (checks : List CheckEntry)
    (risks : List String) (metrics : MetricsSummary) : String :=
  let lines :=
    if status = "pass" then ["All SLO checks passed."]
    else if status = "fail" then
      let failed := checks.filter (fun c => c.result == "fail")
      ["SLO VIOLATION: " ++ toString failed.length ++ " check(s) failed."]
        ++ failed.map (fun c => "  - " ++ c.detail)
    else ["SLO checks passed, but risks were detected."]
  let lines := lines ++
    (match metrics.throughput_rps with
     | some t => ["Throughput: " ++ fmtFixed 0 t ++ " rps"]
     | none => [])
  let lines := lines ++
    (if risks ≠ [] then ["Risks:"] ++ risks.map (fun r => "  - " ++ r) else [])
  String.intercalate "\n" lines

/-- The error-rate block of interpreter.interpret: the check entry it
appends and the contribution it makes to the any_fail flag. -/
def errorCheck (metrics : MetricsSummary) (slo : SLO) : List CheckEntry × Bool :=
  match metrics.error_rate with
  | some er =>
    let passed := decide (er ≤ slo.error_rate)
    ([{ metric := "error_rate",
        result := if passed then "pass" else "fail",
        detail := "error rate: " ++ fmtFixed 2 (ratMul er 100)
          ++ "% (threshold: " ++ fmtFixed 1 (ratMul slo.error_rate 100) ++ "%)" }],
     !passed)
  | none =>
    ([{ metric := "error_rate", result := "skip",
        detail := "error rate not provided in metrics" }], false)

/-- The checks list of interpreter.interpret together with the any_fail
flag exactly as the source accumulates it (set whenever a failing check
is appended). -/
def interpretChecks (metrics : MetricsSummary) (slo : SLO) : List CheckEntry × Bool :=
  let lat := (latency_fields metrics).foldl (latencyStep slo) ([], false)
  let ce := errorCheck metrics slo
  (lat.1 ++ ce.1, lat.2 || ce.2)

/-- The resource-saturation risk block of interpreter.interpret. -/
def resourceRisks (metrics : MetricsSummary) : List String :=
  (match metrics.cpu_percent with
   | some c => if 80 < c then ["High CPU usage: " ++ fmtFixed 0 c ++ "%"] else []
   | none => []) ++
  (match metrics.memory_percent with
   | some m => if 80 < m then ["High memory usage: " ++ fmtFixed 0 m ++ "%"] else []
   | none => []) ++
  (match metrics.gc_pause_ms with
   | some g => if 100 < g then ["Elevated GC pause: " ++ fmtFixed 0 g ++ " ms"] else []
   | none => [])

/-- interpreter.interpret: evaluate a MetricsSummary against an SLO.
Total, mirroring the Python function, which never raises. -/
def interpret (metrics : MetricsSummary) (slo : SLO) : InterpretationResult :=
  let cf := interpretChecks metrics slo
  let risks := resourceRisks metrics
  let status := if cf.2 then "fail" else if risks ≠ [] then "warning" else "pass"
  { status := status
    narrative := _build_narrative status cf.1 risks metrics
    checks := cf.1
    risks := risks }

/-- models.TrafficShape. -/
structure TrafficShape where
  baseline_rps : Int
  peak_rps : Int
  burst_factor : ℚ := 3
deriving DecidableEq, Repr

/-- models.Endpoint. -/
structure Endpoint where
  path : String
  method : String := "GET"
  critical : Bool := false
deriving DecidableEq, Repr

/-- models.DataConstraints. -/
structure DataConstraints where
  uses_production_data : Bool := false
  notes : String := ""
deriving DecidableEq, Repr

/-- models.ServiceProfile (validated form). -/
structure ServiceProfile where
  service : String
  summary : String
  traffic : TrafficShape
  slo : SLO
  endpoints : List Endpoint := []
  dependencies : List String := []
  data : Option DataConstraints := none
deriving DecidableEq, Repr

/-- models.Check. -/
structure Check where
  metric : String
  operator : String
  threshold : ℚ
  description : String := ""
deriving DecidableEq, Repr

/-- models.Stage. -/
structure Stage where
  name : String
  duration_seconds : Int
  target_rps : Option Int := none
  target_vus : Option Int := none
deriving DecidableEq, Repr

/-- models.Scenario. -/
structure Scenario where
  name : String
  description : String
  stages : List Stage := []
  checks : List Check := []
  metrics_to_watch : List String := []
deriving DecidableEq, Repr

/-- models.SafetyNotes. -/
structure SafetyNotes where
  test_data_handling : String := ""
  environment_isolation : String := ""
  cleanup_steps : String := ""
deriving DecidableEq, Repr

/-- models.LoadTestPlan. -/
structure LoadTestPlan where
  service : String
  profile_path : String
  scenarios : List Scenario := []
  safety_notes : Option SafetyNotes := none
deriving DecidableEq, Repr

/-- Python int() applied to a float: truncation toward zero
(Int.tdiv is T-division, and the denominator is positive). -/
def pyTrunc (q : ℚ) : Int :=
  q.num.tdiv (q.den : Int)

/-- generator._common_checks: one latency check per slo.latency_ms entry,
in mapping order, then the error_rate check. -/
def _common_checks (profile : ServiceProfile) : List Check :=
  profile.slo.latency_ms.map (fun pt =>
    { metric := "latency_" ++ pt.1
      operator := "<="
      threshold := pt.2
      description := pt.1 ++ " latency must be <= " ++ ratStr pt.2 ++ " ms" })
  ++ [{ metric := "error_rate"
        operator := "<="
        threshold := profile.slo.error_rate
        description := "error rate must be <= "
          ++ fmtFixed 1 (ratMul profile.slo.error_rate 100) ++ "%" }]

/-- generator._COMMON_METRICS. -/
def _COMMON_METRICS : List String :=
  ["latency_p50", "latency_p90", "latency_p95", "latency_p99",
   "error_rate", "throughput_rps", "cpu_percent", "memory_percent"]

/-- generator._steady_scenario. -/
def _steady_scenario (profile : ServiceProfile) : Scenario :=
  let baseline := profile.traffic.baseline_rps
  { name := "steady"
    description := "Sustain baseline traffic at " ++ toString baseline
      ++ " rps for 10 minutes to validate normal-operation SLOs."
    stages :=
      [{ name := "ramp-up", duration_seconds := 60, target_rps := some baseline },
       { name := "hold", duration_seconds := 600, target_rps := some baseline },
       { name := "ramp-down", duration_seconds := 30, target_rps := some 0 }]
    checks := _common_checks profile
    metrics_to_watch := _COMMON_METRICS }

/-- The relaxation applied to one check by the loop of
generator._burst_scenario: latency checks get threshold * 1.5 and a
regenerated description, any other check is reused unchanged. -/
def relaxCheck (c : Check) : Check :=
  if pyStartsWith c.metric "latency_" then
    { metric := c.metric
      operator := c.operator
      threshold := ratMul c.threshold (mkRat 3 2)
      description := "(burst-relaxed) " ++ c.metric ++ " <= "
        ++ fmtFixed 0 (ratMul c.threshold (mkRat 3 2)) ++ " ms" }
  else c

/-- generator._burst_scenario: latency thresholds are relaxed by 50
percent, the error_rate check is reused unchanged. -/
def _burst_scenario (profile : ServiceProfile) : Scenario :=
  let peak := profile.traffic.peak_rps
  let burst_rps := pyTrunc (ratMul (peak : ℚ) profile.traffic.burst_factor)
  let baseline := profile.traffic.baseline_rps
  let checks := _common_checks profile
  let burst_checks := checks.map relaxCheck
  { name := "burst"
    description := "Spike from " ++ toString baseline ++ " rps to "
      ++ toString burst_rps ++ " rps over 30 seconds, "
      ++ "hold for 2 minutes, then return to baseline. "
      ++ "Validates behaviour under sudden traffic surges."
    stages :=
      [{ name := "ramp-up", duration_seconds := 60, target_rps := some baseline },
       { name := "hold-baseline", duration_seconds := 120, target_rps := some baseline },
       { name := "spike", duration_seconds := 30, target_rps := some burst_rps },
       { name := "hold-burst", duration_seconds := 120, target_rps := some burst_rps },
       { name := "recover", duration_seconds := 60, target_rps := some baseline },
       { name := "ramp-down", duration_seconds := 30, target_rps := some 0 }]
    checks := burst_checks
    metrics_to_watch := _COMMON_METRICS }

/-- generator._soak_scenario: common checks plus two fixed resource checks. -/
def _soak_scenario (profile : ServiceProfile) : Scenario :=
  let baseline := profile.traffic.baseline_rps
  { name := "soak"
    description := "Run at baseline (" ++ toString baseline
      ++ " rps) for 60 minutes to detect slow leaks, connection exhaustion, or GC pressure."
    stages :=
      [{ name := "ramp-up", duration_seconds := 120, target_rps := some baseline },
       { name := "hold", duration_seconds := 3600, target_rps := some baseline },
       { name := "ramp-down", duration_seconds := 60, target_rps := some 0 }]
    checks := _common_checks profile ++
      [{ metric := "memory_percent"
         operator := "<="
         threshold := 85
         description := "memory usage must stay below 85% during soak" },
       { metric := "cpu_percent"
         operator := "<="
         threshold := 80
         description := "CPU usage must stay below 80% during soak" }]
    metrics_to_watch := _COMMON_METRICS ++ ["gc_pause_ms"] }

/-- generator._safety_notes. -/
def _safety_notes (profile : ServiceProfile) : SafetyNotes :=
  let test_data :=
    match profile.data with
    | some d =>
      if d.uses_production_data then
        "WARNING: profile indicates production data may be in use. "
          ++ "Ensure PII masking and data-handling policies are followed."
      else if d.notes ≠ "" then d.notes
      else "Use synthetic/test data only."
    | none => "Use synthetic/test data only."
  let deps :=
    if profile.dependencies ≠ [] then String.intercalate ", " profile.dependencies
    else "none listed"
  { test_data_handling := test_data
    environment_isolation := "Ensure load tests run against an isolated environment. "
      ++ "Dependencies (" ++ deps ++ ") should be stubbed or provisioned in test mode."
    cleanup_steps := "After test completion, tear down any provisioned test data "
      ++ "and verify no side-effects leaked to shared environments." }

/-- generator.generate_plan. -/
def generate_plan (profile : ServiceProfile) (profile_path : String) : LoadTestPlan :=
  { service := profile.service
    profile_path := profile_path
    scenarios := [ _steady_scenario profile, _burst_scenario profile, _soak_scenario profile]
    safety_notes := some ( _safety_notes profile) }

/-- Untyped parsed YAML/JSON values, as handed to the loader after the
excluded parsing collaborator has run. Python dicts are association lists
with distinct keys. -/
inductive Value where
  | null
  | bool (b : Bool)
  | num (q : ℚ)
  | str (s : String)
  | list (xs : List Value)
  | dict (kvs : List (String × Value))
deriving Repr

/-- Python dict.get on an association list. -/
def dictGet (kvs : List (String × Value)) (k : String) : Option Value :=
  (kvs.find? (fun kv => kv.1 == k)).map (fun kv => kv.2)

/-- Python dict item assignment: overwrite in place or append. -/
def dictSet (kvs : List (String × Value)) (k : String) (v : Value) :
    List (String × Value) :=
  if kvs.any (fun kv => kv.1 == k) then
    kvs.map (fun kv => if kv.1 == k then (k, v) else kv)
  else kvs ++ [(k, v)]

/-- Python isinstance(v, (int, float)): bool is a subtype of int. -/
def isNumber : Value → Bool
  | .num _ => true
  | .bool _ => true
  | _ => false

/-- Python float(v): succeeds on numbers and bools, on strings when the
external string-to-float parse pf succeeds, and raises otherwise. -/
def coerceFloat (pf : String → Option ℚ) : Value → Option ℚ
  | .num q => some q
  | .bool b => some (if b then 1 else 0)
  | .str s => pf s
  | _ => none

/-- Python int(v) on a value already validated to be a number. -/
def pyIntOfNumber : Value → Int
  | .num q => pyTrunc q
  | .bool b => if b then 1 else 0
  | _ => 0

/-- Python float(v) on a value already validated to be a number. -/
def pyFloatOfNumber : Value → ℚ
  | .num q => q
  | .bool b => if b then 1 else 0
  | _ => 0

/-- Python truthiness of a parsed value. -/
def truthy : Value → Bool
  | .null => false
  | .bool b => b
  | .num q => decide (q ≠ 0)
  | .str s => decide (s ≠ "")
  | .list xs => !xs.isEmpty
  | .dict kvs => !kvs.isEmpty

mutual

/-- Python repr() of a parsed value (used in loader/interpreter warnings). -/
def pyRepr : Value → String
  | .null => "None"
  | .bool b => if b then "True" else "False"
  | .num q => ratStr q
  | .str s => "\x27" ++ s ++ "\x27"
  | .list xs => "[" ++ pyReprItems xs ++ "]"
  | .dict kvs => "\x7b" ++ pyReprPairs kvs ++ "\x7d"

/-- Comma-joined reprs of list items. -/
def pyReprItems : List Value → String
  | [] => ""
  | [x] => pyRepr x
  | x :: xs => pyRepr x ++ ", " ++ pyReprItems xs

/-- Comma-joined reprs of dict pairs. -/
def pyReprPairs : List (String × Value) → String
  | [] => ""
  | [kv] => "\x27" ++ kv.1 ++ "\x27: " ++ pyRepr kv.2
  | kv :: kvs => "\x27" ++ kv.1 ++ "\x27: " ++ pyRepr kv.2 ++ ", " ++ pyReprPairs kvs

end

/-- Python str() of a parsed value. -/
def pyStr : Value → String
  | .str s => s
  | v => pyRepr v

/-- loader._parse_slo output: latency_ms is stored as the raw mapping. -/
structure LoadedSLO where
  latency_ms : List (String × Value) := []
  error_rate : ℚ := mkRat 1 100

/-- loader._parse_endpoints output: field values are stored raw. -/
structure LoadedEndpoint where
  path : Value
  method : Value
  critical : Value

/-- The ServiceProfile as actually constructed by loader._build_profile
(summary and dependency elements are stored untyped). -/
structure LoadedProfile where
  service : String
  summary : Value
  traffic : TrafficShape
  slo : LoadedSLO
  endpoints : List LoadedEndpoint
  dependencies : List Value
  data : DataConstraints

/-- The ways profile loading can terminate abnormally: a
ProfileValidationError carrying the collected messages, or an uncaught
exception escaping from a built-in (e.g. float()). -/
inductive ProfileError where
  | validation (msgs : List String)
  | uncaught (msg : String)
deriving DecidableEq, Repr

def serviceRequiredMsg : String :=
  "\x27service\x27 is required and must be a non-empty string"

def trafficRequiredMsg : String :=
  "\x27traffic\x27 is required and must be a mapping"

def baselineRequiredMsg : String :=
  "\x27traffic.baseline_rps\x27 is required and must be a number"

def peakRequiredMsg : String :=
  "\x27traffic.peak_rps\x27 is required and must be a number"

/-- loader._parse_traffic. burst_factor is taken with default 3.0 but is
never validated; the final float(burst) escapes as an uncaught exception
(modelled as the .error case, message text abstracted) when the value is
not float-coercible. -/
def _parse_traffic (pf : String → Option ℚ) (raw : List (String × Value))
    (errors : List String) : Except String (TrafficShape × List String) :=
  let baseline := dictGet raw "baseline_rps"
  let peak := dictGet raw "peak_rps"
  let burst := (dictGet raw "burst_factor").getD (.num 3)
  let be : Value × List String :=
    match baseline with
    | some v =>
      if isNumber v then (v, errors) else (.num 0, errors ++ [baselineRequiredMsg])
    | none => (.num 0, errors ++ [baselineRequiredMsg])
  let pe : Value × List String :=
    match peak with
    | some v =>
      if isNumber v then (v, be.2) else (.num 0, be.2 ++ [peakRequiredMsg])
    | none => (.num 0, be.2 ++ [peakRequiredMsg])
  match coerceFloat pf burst with
  | some bf =>
    .ok ({ baseline_rps := pyIntOfNumber be.1, peak_rps := pyIntOfNumber pe.1,
           burst_factor := bf }, pe.2)
  | none => .error "uncaught TypeError/ValueError from float(traffic.burst_factor)"

/-- loader._parse_slo. -/
def _parse_slo (raw : List (String × Value)) (errors : List String) :
    LoadedSLO × List String :=
  let lat := (dictGet raw "latency_ms").getD (.dict [])
  let le : List (String × Value) × List String :=
    match lat with
    | .dict kvs => (kvs, errors)
    | _ => ([], errors ++ ["\x27slo.latency_ms\x27 must be a mapping"])
  let er := (dictGet raw "error_rate").getD (.num (mkRat 1 100))
  let ee : ℚ × List String :=
    if isNumber er then (pyFloatOfNumber er, le.2)
    else (mkRat 1 100, le.2 ++ ["\x27slo.error_rate\x27 must be a number"])
  ({ latency_ms := le.1, error_rate := ee.1 }, ee.2)

/-- One iteration of the loader._parse_endpoints loop over the enumerated
endpoint entries. -/
def endpointStep (acc : List LoadedEndpoint × List String) (iv : Nat × Value) :
    List LoadedEndpoint × List String :=
  match iv.2 with
  | .dict ep =>
    let path := (dictGet ep "path").getD (.str "")
    let method := (dictGet ep "method").getD (.str "GET")
    let critical := (dictGet ep "critical").getD (.bool false)
    let errs :=
      if truthy path then acc.2
      else acc.2 ++ ["endpoints[" ++ toString iv.1 ++ "].path is required"]
    (acc.1 ++ [{ path := path, method := method, critical := critical }], errs)
  | _ =>
    (acc.1, acc.2 ++ ["endpoints[" ++ toString iv.1 ++ "] must be a mapping"])

/-- loader._parse_endpoints. -/
def _parse_endpoints (raw : Value) (errors : List String) :
    List LoadedEndpoint × List String :=
  match raw with
  | .list items => items.enum.foldl endpointStep ([], errors)
  | _ => ([], errors ++ ["\x27endpoints\x27 must be a list"])

/-- loader._parse_data. -/
def _parse_data (raw : Option Value) : DataConstraints :=
  match raw with
  | some (.dict kvs) =>
    { uses_production_data := truthy ((dictGet kvs "uses_production_data").getD (.bool false))
      notes := pyStr ((dictGet kvs "notes").getD (.str "")) }
  | _ => {}

/-- The service block of loader._build_profile: the error is recorded
when the value is absent, falsy (e.g. the empty string) or not a string;
on success the string is kept. -/
def serviceField (raw : List (String × Value)) : String × List String :=
  match dictGet raw "service" with
  | some (.str s) => if s = "" then ("", [serviceRequiredMsg]) else (s, [])
  | _ => ("", [serviceRequiredMsg])

/-- The traffic block of loader._build_profile: a missing or non-mapping
traffic key is recorded as an error, otherwise _parse_traffic runs (and
its uncaught exception, if any, propagates). -/
def trafficField (pf : String → Option ℚ) (raw : List (String × Value))
    (errors : List String) : Except String (Option TrafficShape × List String) :=
  match dictGet raw "traffic" with
  | some (.dict tkvs) => ( _parse_traffic pf tkvs errors).map (fun te => (some te.1, te.2))
  | _ => .ok (none, errors ++ [trafficRequiredMsg])

/-- The slo block of loader._build_profile. -/
def sloField (raw : List (String × Value)) (errors : List String) :
    Option LoadedSLO × List String :=
  match dictGet raw "slo" with
  | some (.dict skvs) =>
    let r := _parse_slo skvs errors
    (some r.1, r.2)
  | _ => (none, errors ++ ["\x27slo\x27 is required and must be a mapping"])

/-- The dependencies block of loader._build_profile. -/
def depsField (raw : List (String × Value)) (errors : List String) :
    List Value × List String :=
  match (dictGet raw "dependencies").getD (.list []) with
  | .list ds => (ds, errors)
  | _ => ([], errors ++ ["\x27dependencies\x27 must be a list"])

/-- loader._build_profile: collect every field-level error, then either
raise a single ProfileValidationError carrying all of them or build the
profile. An exception escaping from _parse_traffic propagates immediately.
The getD fall-backs on the success path are unreachable: traffic and slo
are present there, since their absence put a message into the error list. -/
def _build_profile (pf : String → Option ℚ) (raw : List (String × Value)) :
    Except ProfileError LoadedProfile :=
  let se := serviceField raw
  let summary := (dictGet raw "summary").getD (.str "")
  match trafficField pf raw se.2 with
  | .error m => .error (.uncaught m)
  | .ok te =>
    let sl := sloField raw te.2
    let ep := _parse_endpoints ((dictGet raw "endpoints").getD (.list [])) sl.2
    let dp := depsField raw ep.2
    let data := _parse_data (dictGet raw "data")
    if dp.2 ≠ [] then .error (.validation dp.2)
    else
      .ok { service := se.1
            summary := summary
            traffic := te.1.getD { baseline_rps := 0, peak_rps := 0, burst_factor := 3 }
            slo := sl.1.getD {}
            endpoints := ep.1
            dependencies := dp.1
            data := data }

/-- interpreter._METRIC_FIELDS. -/
def _METRIC_FIELDS : List String :=
  ["p50_ms", "p90_ms", "p95_ms", "p99_ms",
   "error_rate", "throughput_rps",
   "cpu_percent", "memory_percent", "gc_pause_ms"]

/-- One field of interpreter._dict_to_metrics: Python raw.get(name) yields
None both for an absent key and for an explicit null value. -/
def fieldVal (pf : String → Option ℚ) (raw : List (String × Value))
    (f : String) : Option ℚ × List String :=
  match dictGet raw f with
  | none => (none, ["missing field: " ++ f])
  | some .null => (none, ["missing field: " ++ f])
  | some v =>
    match coerceFloat pf v with
    | some q => (some q, [])
    | none => (none, ["non-numeric value for " ++ f ++ ": " ++ pyRepr v])

/-- interpreter._dict_to_metrics. -/
def _dict_to_metrics (pf : String → Option ℚ) (raw : List (String × Value)) :
    MetricsSummary × List String :=
  let v50 := fieldVal pf raw "p50_ms"
  let v90 := fieldVal pf raw "p90_ms"
  let v95 := fieldVal pf raw "p95_ms"
  let v99 := fieldVal pf raw "p99_ms"
  let ver := fieldVal pf raw "error_rate"
  let vtp := fieldVal pf raw "throughput_rps"
  let vcpu := fieldVal pf raw "cpu_percent"
  let vmem := fieldVal pf raw "memory_percent"
  let vgc := fieldVal pf raw "gc_pause_ms"
  ({ p50_ms := v50.1, p90_ms := v90.1, p95_ms := v95.1, p99_ms := v99.1,
     error_rate := ver.1, throughput_rps := vtp.1, cpu_percent := vcpu.1,
     memory_percent := vmem.1, gc_pause_ms := vgc.1 },
   v50.2 ++ v90.2 ++ v95.2 ++ v99.2 ++ ver.2 ++ vtp.2 ++ vcpu.2 ++ vmem.2 ++ vgc.2)

/-- One iteration of the dict-building loop of interpreter._load_csv:
keep a recognized, float-coercible column; drop everything else. -/
def csvStep (pf : String → Option ℚ) (acc : List (String × Value))
    (kv : String × String) : List (String × Value) :=
  let key := pyStrip kv.1
  if _METRIC_FIELDS.contains key then
    match pf kv.2 with
    | some q => dictSet acc key (.num q)
    | none => acc
  else acc

/-- The dict built by interpreter._load_csv from the first CSV row. -/
def csvRaw (pf : String → Option ℚ) (row : List (String × String)) :
    List (String × Value) :=
  row.foldl (csvStep pf) []

/-- interpreter._load_csv, from the point where the CSV text has been
parsed into rows of (column, cell) pairs (csv.DictReader is the excluded
I/O collaborator). -/
def _load_csv_rows (pf : String → Option ℚ) (rows : List (List (String × String))) :
    Except String (MetricsSummary × List String) :=
  match rows with
  | [] => .error "CSV file has no data rows"
  | row :: _ => .ok ( _dict_to_metrics pf (csvRaw pf row))

/-- interpreter._load_json, from the point where the JSON text has been
parsed: a non-dict top level is fatal, otherwise _dict_to_metrics. -/
def _load_json_value (pf : String → Option ℚ) (raw : Value) :
    Except String (MetricsSummary × List String) :=
  match raw with
  | .dict kvs => .ok ( _dict_to_metrics pf kvs)
  | _ => .error "metrics JSON must be an object at top level"

/-- The end-to-end example profile of the specification: baseline 50 rps,
peak 200 rps, burst factor 3.0, p95 at 400 ms, p99 at 800 ms, error rate 1%. -/
def exampleProfile : ServiceProfile :=
  { service := "checkout"
    summary := ""
    traffic := { baseline_rps := 50, peak_rps := 200, burst_factor := 3 }
    slo := { latency_ms := [("p95", 400), ("p99", 800)], error_rate := mkRat 1 100 } }

/-- A MetricsSummary whose nine fields are all null. -/
def nullMetrics : MetricsSummary := {}

/-- The SLO of the specification example, used as witness input. -/
def slo0 : SLO :=
  { latency_ms := [("p95", 400), ("p99", 800)], error_rate := mkRat 1 100 }

/-- Projection of a MetricsSummary field by its Python name. -/
def msField (f : String) (m : MetricsSummary) : Option ℚ :=
  if f = "p50_ms" then m.p50_ms
  else if f = "p90_ms" then m.p90_ms
  else if f = "p95_ms" then m.p95_ms
  else if f = "p99_ms" then m.p99_ms
  else if f = "error_rate" then m.error_rate
  else if f = "throughput_rps" then m.throughput_rps
  else if f = "cpu_percent" then m.cpu_percent
  else if f = "memory_percent" then m.memory_percent
  else m.gc_pause_ms

/-- String-to-float oracle used in the CSV witness: parses only "12.5". -/
def pf0 : String → Option ℚ :=
  fun s => if s = "12.5" then some (mkRat 25 2) else none

/-- A raw profile document whose traffic mapping carries a null
burst_factor; everything else is well-formed. -/
def rawBurstNull : List (String × Value) :=
  [("service", .str "svc"),
   ("traffic", .dict [("baseline_rps", .num 50), ("peak_rps", .num 200),
                      ("burst_factor", .null)]),
   ("slo", .dict [("latency_ms", .dict [("p95", .num 400)]),
                  ("error_rate", .num (mkRat 1 100))])]

/-- ratMul is ℚ multiplication. -/
theorem ratMul_eq (a b : ℚ) : ratMul a b = a * b := by
  rw [ratMul, Rat.mkRat_eq_div]
  push_cast
  rw [← div_mul_div_comm, Rat.num_div_den, Rat.num_div_den]

/-- Relaxing by the float 1.5 is multiplication by mkRat 3 2. -/
theorem ratMul_three_halves (a : ℚ) : ratMul a (mkRat 3 2) = a * 1.5 := by
  rw [ratMul_eq]
  norm_num [Rat.mkRat_eq_div]

/-- The steady scenario carries the common checks verbatim. -/
theorem steady_checks (p : ServiceProfile) :
    ( _steady_scenario p).checks = _common_checks p := rfl

/-- The burst scenario checks are the relaxed common checks. -/
theorem burst_checks (p : ServiceProfile) :
    ( _burst_scenario p).checks = ( _common_checks p).map relaxCheck := rfl

/-- C2: for every profile, every latency check of the steady scenario of
generate_plan reappears in the burst scenario with the same metric and
operator and threshold exactly 1.5 times the steady threshold, and every
non-latency check of the steady scenario appears unchanged (hence with an
identical threshold) in the burst scenario. -/
theorem burst_relaxes_latency (p : ServiceProfile) (path : String)
    (st b : Scenario)
    (hst : (generate_plan p path).scenarios[0]? = some st)
    (hb : (generate_plan p path).scenarios[1]? = some b) :
    (∀ c ∈ st.checks, pyStartsWith c.metric "latency_" = true →
       ∃ c' ∈ b.checks, c'.metric = c.metric ∧ c'.operator = c.operator ∧
         c'.threshold = c.threshold * 1.5) ∧
    (∀ c ∈ st.checks, pyStartsWith c.metric "latency_" = false → c ∈ b.checks) := by
  have hst' : _steady_scenario p = st := by simpa [generate_plan] using hst
  have hb' : _burst_scenario p = b := by simpa [generate_plan] using hb
  subst hst' hb'
  rw [steady_checks, burst_checks]
  constructor
  · intro c hc hlat
    refine ⟨relaxCheck c, List.mem_map_of_mem _ hc, ?_, ?_, ?_⟩ <;>
      simp [relaxCheck, hlat, ratMul_three_halves]
  · intro c hc hlat
    have hfix : relaxCheck c = c := by simp [relaxCheck, hlat]
    exact hfix ▸ List.mem_map_of_mem _ hc

/-- Witness for C2 at the example profile: the error_rate check of the
steady scenario is contained unchanged in the burst scenario. -/
theorem burst_relaxes_latency_witness :
    ({ metric := "error_rate", operator := "<=", threshold := mkRat 1 100,
       description := "error rate must be <= 1.0%" } : Check)
      ∈ ( _burst_scenario exampleProfile).checks := by
  have h := burst_relaxes_latency exampleProfile "profile.yaml"
    ( _steady_scenario exampleProfile) ( _burst_scenario exampleProfile) rfl rfl
  exact h.2 _ (by decide) (by decide)

/-- C3: generate_plan always returns exactly three scenarios named, in
order, steady, burst and soak, each with at least one check and a
non-empty metrics_to_watch list. -/
theorem generate_plan_scenarios (p : ServiceProfile) (path : String) :
    (generate_plan p path).scenarios.map Scenario.name = ["steady", "burst", "soak"] ∧
    ∀ s ∈ (generate_plan p path).scenarios, s.checks ≠ [] ∧ s.metrics_to_watch ≠ [] := by
  refine ⟨rfl, ?_⟩
  intro s hs
  have hs' : s = _steady_scenario p ∨ s = _burst_scenario p ∨ s = _soak_scenario p := by
    simpa [generate_plan] using hs
  rcases hs' with rfl | rfl | rfl
  · exact ⟨by simp [ _steady_scenario, _common_checks], by simp [ _steady_scenario, _COMMON_METRICS]⟩
  · exact ⟨by simp [ _burst_scenario, _common_checks], by simp [ _burst_scenario, _COMMON_METRICS]⟩
  · exact ⟨by simp [ _soak_scenario, _common_checks], by simp [ _soak_scenario, _COMMON_METRICS]⟩

/-- Witness for C3 at the example profile. -/
theorem generate_plan_scenarios_witness :
    (generate_plan exampleProfile "profile.yaml").scenarios.map Scenario.name
      = ["steady", "burst", "soak"] ∧
    ( _steady_scenario exampleProfile).checks ≠ [] := by
  refine ⟨(generate_plan_scenarios exampleProfile "profile.yaml").1, ?_⟩
  exact ((generate_plan_scenarios exampleProfile "profile.yaml").2
    ( _steady_scenario exampleProfile) (by simp [generate_plan])).1

/-- C7: for the example profile (baseline 50, peak 200, burst factor 3.0,
p95 threshold 400), the burst scenario of generate_plan has a spike stage
with target_rps 600 = int(200 * 3.0) and a latency_p95 check with
threshold 600.0 = 400 * 1.5. -/
theorem burst_spike_example :
    ∃ b, (generate_plan exampleProfile "profile.yaml").scenarios[1]? = some b ∧
      (b.stages.filter (fun st => st.name == "spike")).map Stage.target_rps
        = [some 600] ∧
      (b.checks.filter (fun c => c.metric == "latency_p95")).map Check.threshold
        = [600] := by
  refine ⟨ _burst_scenario exampleProfile, rfl, ?_, ?_⟩ <;> decide

/-- C8: for every profile, the soak scenario of generate_plan contains the
constant resource checks memory_percent <= 85.0 and cpu_percent <= 80.0. -/
theorem soak_resource_checks (p : ServiceProfile) (path : String) :
    ∃ so, (generate_plan p path).scenarios[2]? = some so ∧ so.name = "soak" ∧
      ({ metric := "memory_percent", operator := "<=", threshold := 85,
         description := "memory usage must stay below 85% during soak" } : Check)
        ∈ so.checks ∧
      ({ metric := "cpu_percent", operator := "<=", threshold := 80,
         description := "CPU usage must stay below 80% during soak" } : Check)
        ∈ so.checks := by
  refine ⟨ _soak_scenario p, rfl, rfl, ?_, ?_⟩ <;> simp [ _soak_scenario]

/-- One latency-loop step keeps the any_fail flag equal to whether a
failing check has been appended so far. -/
theorem latencyStep_flag (slo : SLO) (acc : List CheckEntry × Bool)
    (pv : String × Option ℚ)
    (h : acc.2 = acc.1.any fun c => c.result == "fail") :
    (latencyStep slo acc pv).2
      = (latencyStep slo acc pv).1.any fun c => c.result == "fail" := by
  obtain ⟨pct, val⟩ := pv
  unfold latencyStep
  rcases ht : sloGet slo pct with _ | t
  · simpa [ht] using h
  · rcases val with _ | v
    · simp [ht, List.any_append, h]
    · by_cases hv : v ≤ t <;> simp [ht, hv, List.any_append, h]

/-- The whole latency loop keeps the any_fail flag equal to whether a
failing check is in the list. -/
theorem latencyFold_flag (slo : SLO) (l : List (String × Option ℚ))
    (acc : List CheckEntry × Bool)
    (h : acc.2 = acc.1.any fun c => c.result == "fail") :
    (l.foldl (latencyStep slo) acc).2
      = (l.foldl (latencyStep slo) acc).1.any fun c => c.result == "fail" := by
  induction l generalizing acc with
  | nil => exact h
  | cons pv l ih => exact ih _ (latencyStep_flag slo acc pv h)

/-- The accumulated any_fail flag of interpret agrees with the presence
of a failing entry in the checks list. -/
theorem interpretChecks_flag (m : MetricsSummary) (slo : SLO) :
    (interpretChecks m slo).2
      = (interpretChecks m slo).1.any fun c => c.result == "fail" := by
  unfold interpretChecks
  have hl := latencyFold_flag slo (latency_fields m) ([], false) rfl
  rcases he : m.error_rate with _ | er
  · simp [errorCheck, he, List.any_append, hl]
  · by_cases hle : er ≤ slo.error_rate <;>
      simp [errorCheck, he, hle, List.any_append, hl]

/-- C1: interpret's status is fail precisely when some check entry failed;
otherwise it is warning precisely when the risks list is non-empty, and
pass when it is empty. -/
theorem interpret_triage (m : MetricsSummary) (slo : SLO) :
    (interpret m slo).status =
      if ∃ c ∈ (interpret m slo).checks, c.result = "fail" then "fail"
      else if (interpret m slo).risks ≠ [] then "warning"
      else "pass" := by
  have hs : (interpret m slo).status
      = if (interpretChecks m slo).2 then "fail"
        else if resourceRisks m ≠ [] then "warning" else "pass" := rfl
  have hc : (interpret m slo).checks = (interpretChecks m slo).1 := rfl
  have hr : (interpret m slo).risks = resourceRisks m := rfl
  rw [hs, hc, hr, interpretChecks_flag]
  simp only [List.any_eq_true, beq_iff_eq]

/-- C4: interpret on an all-null MetricsSummary returns only skip check
entries, no risks, and status pass (and, being a total function over the
model, it cannot raise). -/
theorem interpret_all_null (slo : SLO) :
    (∀ c ∈ (interpret nullMetrics slo).checks, c.result = "skip") ∧
    (interpret nullMetrics slo).risks = [] ∧
    (interpret nullMetrics slo).status = "pass" := by
  rcases h95 : sloGet slo "p95" with _ | t95 <;>
    rcases h99 : sloGet slo "p99" with _ | t99 <;>
      refine ⟨?_, rfl, ?_⟩ <;>
        simp [interpret, interpretChecks, errorCheck, resourceRisks, latency_fields,
              nullMetrics, latencyStep, h95, h99]

/-- Witness for C4 at the example SLO. -/
theorem interpret_all_null_witness :
    (interpret nullMetrics slo0).risks = [] ∧
    (interpret nullMetrics slo0).status = "pass" :=
  ⟨(interpret_all_null slo0).2.1, (interpret_all_null slo0).2.2⟩

/-- Entries appended by the latency loop are latency_p95 / latency_p99
checks, and only under presence of the corresponding key in the SLO map. -/
theorem latencyFold_metrics (slo : SLO) (l : List (String × Option ℚ))
    (acc : List CheckEntry × Bool)
    (hl : ∀ pv ∈ l, pv.1 = "p95" ∨ pv.1 = "p99")
    (hacc : ∀ c ∈ acc.1,
      c.metric = "error_rate" ∨
      (c.metric = "latency_p95" ∧ sloGet slo "p95" ≠ none) ∨
      (c.metric = "latency_p99" ∧ sloGet slo "p99" ≠ none)) :
    ∀ c ∈ (l.foldl (latencyStep slo) acc).1,
      c.metric = "error_rate" ∨
      (c.metric = "latency_p95" ∧ sloGet slo "p95" ≠ none) ∨
      (c.metric = "latency_p99" ∧ sloGet slo "p99" ≠ none) := by
  induction l generalizing acc with
  | nil => exact hacc
  | cons pv l ih =>
    refine ih _ (fun q hq => hl q (List.mem_cons_of_mem _ hq)) ?_
    obtain ⟨pct, val⟩ := pv
    have hpct : pct = "p95" ∨ pct = "p99" := hl _ (List.mem_cons_self _ _)
    intro c hc
    unfold latencyStep at hc
    rcases ht : sloGet slo pct with _ | t
    · rw [ht] at hc
      exact hacc c hc
    · rw [ht] at hc
      have hne : sloGet slo pct ≠ none := by rw [ht]; exact fun hcon => Option.noConfusion hcon
      rcases val with _ | v
      · rcases List.mem_append.mp hc with hmem | hmem
        · exact hacc c hmem
        · have hceq : c = ⟨"latency_" ++ pct, "skip",
              pct ++ " latency not provided in metrics"⟩ := by simpa using hmem
          subst hceq
          rcases hpct with rfl | rfl
          · exact Or.inr (Or.inl ⟨rfl, hne⟩)
          · exact Or.inr (Or.inr ⟨rfl, hne⟩)
      · rcases List.mem_append.mp hc with hmem | hmem
        · exact hacc c hmem
        · have hceq : c = ⟨"latency_" ++ pct,
              if decide (v ≤ t) then "pass" else "fail",
              pct ++ " latency: " ++ fmtFixed 1 v
                ++ " ms (threshold: " ++ ratStr t ++ " ms)"⟩ := by simpa using hmem
          subst hceq
          rcases hpct with rfl | rfl
          · exact Or.inr (Or.inl ⟨rfl, hne⟩)
          · exact Or.inr (Or.inr ⟨rfl, hne⟩)

/-- C6: every check entry interpret emits is the error_rate check or a
latency check for p95 or p99, the latter only when that percentile key is
present in slo.latency_ms; extra percentile keys in the SLO (p50, p90,
...) never produce a check. -/
theorem interpret_fixed_percentiles (m : MetricsSummary) (slo : SLO) :
    ∀ c ∈ (interpret m slo).checks,
      c.metric = "error_rate" ∨
      (c.metric = "latency_p95" ∧ sloGet slo "p95" ≠ none) ∨
      (c.metric = "latency_p99" ∧ sloGet slo "p99" ≠ none) := by
  intro c hc
  have hc' : c ∈ ((latency_fields m).foldl (latencyStep slo) ([], false)).1
      ∨ c ∈ (errorCheck m slo).1 := List.mem_append.mp hc
  rcases hc' with hc' | hc'
  · refine latencyFold_metrics slo (latency_fields m) ([], false) ?_ (by simp) c hc'
    intro pv hpv
    simp only [latency_fields, List.mem_cons, List.mem_singleton,
      List.not_mem_nil, or_false] at hpv
    rcases hpv with rfl | rfl
    · left; rfl
    · right; rfl
  · rcases he : m.error_rate with _ | er <;>
      · simp only [errorCheck, he, List.mem_singleton] at hc'
        subst hc'
        left
        rfl

/-- Witness for C6: the p95 skip entry produced on all-null metrics is a
latency_p95 check, and p95 is indeed present in the SLO map. -/
theorem interpret_fixed_percentiles_witness :
    ({ metric := "latency_p95", result := "skip",
       detail := "p95 latency not provided in metrics" } : CheckEntry).metric
        = "error_rate" ∨
    (({ metric := "latency_p95", result := "skip",
        detail := "p95 latency not provided in metrics" } : CheckEntry).metric
        = "latency_p95" ∧ sloGet slo0 "p95" ≠ none) ∨
    (({ metric := "latency_p95", result := "skip",
        detail := "p95 latency not provided in metrics" } : CheckEntry).metric
        = "latency_p99" ∧ sloGet slo0 "p99" ≠ none) :=
  interpret_fixed_percentiles nullMetrics slo0 _ (by decide)

/-- _parse_slo only appends to the incoming error list. -/
theorem _parse_slo_errors (raw : List (String × Value)) (errors : List String) :
    ∃ ext, ( _parse_slo raw errors).2 = errors ++ ext := by
  simp only [ _parse_slo]
  rcases hl : (dictGet raw "latency_ms").getD (.dict []) with _ | b | q | s | xs | kvs <;>
    by_cases hn : isNumber ((dictGet raw "error_rate").getD (.num (mkRat 1 100))) = true <;>
      simp only [hl, hn, if_true, if_false, Bool.false_eq_true] <;>
      first
      | exact ⟨_, rfl⟩
      | exact ⟨[], (List.append_nil errors).symm⟩
      | exact ⟨_, List.append_assoc _ _ _⟩

/-- One endpoint step only appends to the incoming error list. -/
theorem endpointStep_errors (acc : List LoadedEndpoint × List String) (iv : Nat × Value) :
    ∃ ext, (endpointStep acc iv).2 = acc.2 ++ ext := by
  obtain ⟨i, v⟩ := iv
  rcases v with _ | b | q | s | xs | kvs
  · exact ⟨_, rfl⟩
  · exact ⟨_, rfl⟩
  · exact ⟨_, rfl⟩
  · exact ⟨_, rfl⟩
  · exact ⟨_, rfl⟩
  · simp only [endpointStep]
    by_cases hp : truthy ((dictGet kvs "path").getD (.str "")) = true
    · exact ⟨[], by simp [hp]⟩
    · exact ⟨["endpoints[" ++ toString i ++ "].path is required"], by simp [hp]⟩

/-- The endpoint loop only appends to the incoming error list. -/
theorem endpointFold_errors :
    ∀ (l : List (Nat × Value)) (acc : List LoadedEndpoint × List String),
      ∃ ext, (l.foldl endpointStep acc).2 = acc.2 ++ ext := by
  intro l
  induction l with
  | nil => exact fun acc => ⟨[], by simp⟩
  | cons iv l ih =>
    intro acc
    obtain ⟨e1, he1⟩ := endpointStep_errors acc iv
    obtain ⟨e2, he2⟩ := ih (endpointStep acc iv)
    refine ⟨e1 ++ e2, ?_⟩
    rw [List.foldl_cons, he2, he1, List.append_assoc]

/-- _parse_endpoints only appends to the incoming error list. -/
theorem _parse_endpoints_errors (raw : Value) (errors : List String) :
    ∃ ext, ( _parse_endpoints raw errors).2 = errors ++ ext := by
  rcases raw with _ | b | q | s | items | kvs
  · exact ⟨_, rfl⟩
  · exact ⟨_, rfl⟩
  · exact ⟨_, rfl⟩
  · exact ⟨_, rfl⟩
  · exact endpointFold_errors items.enum ([], errors)
  · exact ⟨_, rfl⟩

/-- The slo block only appends to the incoming error list. -/
theorem sloField_errors (raw : List (String × Value)) (errors : List String) :
    ∃ ext, (sloField raw errors).2 = errors ++ ext := by
  unfold sloField
  rcases hg : dictGet raw "slo" with _ | v
  · exact ⟨_, rfl⟩
  · rcases v with _ | b | q | s | xs | kvs
    · exact ⟨_, rfl⟩
    · exact ⟨_, rfl⟩
    · exact ⟨_, rfl⟩
    · exact ⟨_, rfl⟩
    · exact ⟨_, rfl⟩
    · exact _parse_slo_errors kvs errors

/-- The dependencies block only appends to the incoming error list. -/
theorem depsField_errors (raw : List (String × Value)) (errors : List String) :
    ∃ ext, (depsField raw errors).2 = errors ++ ext := by
  unfold depsField
  rcases hg : (dictGet raw "dependencies").getD (.list []) with _ | b | q | s | ds | kvs <;>
    first
    | exact ⟨_, rfl⟩
    | exact ⟨[], (List.append_nil errors).symm⟩

/-- C5: a raw profile mapping missing both the service and the traffic
keys fails with one ProfileValidationError whose collected message list
contains both the service error and the traffic error. -/
theorem missing_service_traffic (pf : String → Option ℚ)
    (raw : List (String × Value))
    (hs : dictGet raw "service" = none) (ht : dictGet raw "traffic" = none) :
    ∃ msgs, _build_profile pf raw = .error (.validation msgs) ∧
      serviceRequiredMsg ∈ msgs ∧ trafficRequiredMsg ∈ msgs := by
  have hse : serviceField raw = ("", [serviceRequiredMsg]) := by
    unfold serviceField; rw [hs]
  have hte : trafficField pf raw [serviceRequiredMsg]
      = .ok (none, [serviceRequiredMsg, trafficRequiredMsg]) := by
    unfold trafficField; rw [ht]; rfl
  obtain ⟨e1, he1⟩ := sloField_errors raw [serviceRequiredMsg, trafficRequiredMsg]
  obtain ⟨e2, he2⟩ := _parse_endpoints_errors ((dictGet raw "endpoints").getD (.list []))
    (sloField raw [serviceRequiredMsg, trafficRequiredMsg]).2
  obtain ⟨e3, he3⟩ := depsField_errors raw
    ( _parse_endpoints ((dictGet raw "endpoints").getD (.list []))
      (sloField raw [serviceRequiredMsg, trafficRequiredMsg]).2).2
  have hmsgs : (depsField raw
      ( _parse_endpoints ((dictGet raw "endpoints").getD (.list []))
        (sloField raw [serviceRequiredMsg, trafficRequiredMsg]).2).2).2
      = [serviceRequiredMsg, trafficRequiredMsg] ++ (e1 ++ (e2 ++ e3)) := by
    rw [he3, he2, he1, List.append_assoc, List.append_assoc]
  refine ⟨[serviceRequiredMsg, trafficRequiredMsg] ++ (e1 ++ (e2 ++ e3)), ?_, by simp, by simp⟩
  simp only [ _build_profile, hse, hte]
  rw [hmsgs, if_pos (by simp)]

/-- Witness for C5 at the empty raw document. -/
theorem missing_service_traffic_witness :
    ∃ msgs, _build_profile (fun _ => none) [] = .error (.validation msgs) ∧
      serviceRequiredMsg ∈ msgs ∧ trafficRequiredMsg ∈ msgs :=
  missing_service_traffic (fun _ => none) [] rfl rfl

/-- The CSV loop ignores unrecognized columns. -/
theorem csvFold_filter (pf : String → Option ℚ) :
    ∀ (row : List (String × String)) (acc : List (String × Value)),
      row.foldl (csvStep pf) acc
        = (row.filter fun kv => _METRIC_FIELDS.contains (pyStrip kv.1)).foldl
            (csvStep pf) acc := by
  intro row
  induction row with
  | nil => intro acc; rfl
  | cons kv row ih =>
    intro acc
    by_cases hk : _METRIC_FIELDS.contains (pyStrip kv.1) = true
    · rw [show (kv :: row).filter (fun kv => _METRIC_FIELDS.contains (pyStrip kv.1))
          = kv :: row.filter (fun kv => _METRIC_FIELDS.contains (pyStrip kv.1)) from by
            rw [List.filter_cons, if_pos hk]]
      rw [List.foldl_cons, List.foldl_cons, ih]
    · rw [show (kv :: row).filter (fun kv => _METRIC_FIELDS.contains (pyStrip kv.1))
          = row.filter (fun kv => _METRIC_FIELDS.contains (pyStrip kv.1)) from by
            rw [List.filter_cons, if_neg hk]]
      rw [List.foldl_cons]
      have hstep : csvStep pf acc kv = acc := by
        simp only [csvStep]
        rw [if_neg hk]
      rw [hstep, ih]

/-- dictSet with a numeric value preserves all-numeric dict values. -/
theorem dictSet_num (kvs : List (String × Value)) (k : String) (q : ℚ)
    (h : ∀ kv ∈ kvs, ∃ r, kv.2 = Value.num r) :
    ∀ kv ∈ dictSet kvs k (.num q), ∃ r, kv.2 = Value.num r := by
  unfold dictSet
  by_cases hc : kvs.any (fun kv => kv.1 == k) = true
  · rw [if_pos hc]
    intro kv hkv
    rcases List.mem_map.mp hkv with ⟨kv0, hkv0, rfl⟩
    by_cases he : (kv0.1 == k) = true
    · rw [if_pos he]
      exact ⟨q, rfl⟩
    · rw [if_neg he]
      exact h kv0 hkv0
  · rw [if_neg hc]
    intro kv hkv
    rcases List.mem_append.mp hkv with hkv | hkv
    · exact h kv hkv
    · have := List.mem_singleton.mp hkv
      subst this
      exact ⟨q, rfl⟩

/-- Every value the CSV loop stores is a float. -/
theorem csvFold_num (pf : String → Option ℚ) :
    ∀ (row : List (String × String)) (acc : List (String × Value)),
      (∀ kv ∈ acc, ∃ r, kv.2 = Value.num r) →
      ∀ kv ∈ row.foldl (csvStep pf) acc, ∃ r, kv.2 = Value.num r := by
  intro row
  induction row with
  | nil => exact fun acc h => h
  | cons kv0 row ih =>
    intro acc hacc
    rw [List.foldl_cons]
    refine ih _ ?_
    simp only [csvStep]
    by_cases hk : _METRIC_FIELDS.contains (pyStrip kv0.1) = true
    · rw [if_pos hk]
      rcases hpf : pf kv0.2 with _ | q
      · exact hacc
      · exact dictSet_num acc _ q hacc
    · rw [if_neg hk]
      exact hacc

/-- When every dict value is a float, fieldVal only emits missing-field
warnings (never a non-numeric one). -/
theorem fieldVal_missing_shape (pf : String → Option ℚ)
    (raw : List (String × Value)) (f : String)
    (hnum : ∀ kv ∈ raw, ∃ r, kv.2 = Value.num r) :
    ∀ w ∈ (fieldVal pf raw f).2, w = "missing field: " ++ f := by
  unfold fieldVal
  rcases hg : dictGet raw f with _ | v
  · intro w hw
    simpa using hw
  · have hv : ∃ r, v = Value.num r := by
      unfold dictGet at hg
      rcases hf0 : raw.find? (fun kv => kv.1 == f) with _ | kv0
      · rw [hf0] at hg; simp at hg
      · rw [hf0] at hg
        have hv2 : kv0.2 = v := by simpa using hg
        obtain ⟨r, hr⟩ := hnum kv0 (List.mem_of_find?_eq_some hf0)
        exact ⟨r, hv2 ▸ hr⟩
    rcases hv with ⟨r, rfl⟩
    intro w hw
    simp [coerceFloat] at hw

/-- On an all-float dict, _dict_to_metrics only warns about missing
fields. -/
theorem dict_to_metrics_missing (pf : String → Option ℚ)
    (raw : List (String × Value))
    (hnum : ∀ kv ∈ raw, ∃ r, kv.2 = Value.num r) :
    ∀ w ∈ ( _dict_to_metrics pf raw).2, ∃ f, w = "missing field: " ++ f := by
  intro w hw
  have hw' : w ∈ (fieldVal pf raw "p50_ms").2 ∨ w ∈ (fieldVal pf raw "p90_ms").2
      ∨ w ∈ (fieldVal pf raw "p95_ms").2 ∨ w ∈ (fieldVal pf raw "p99_ms").2
      ∨ w ∈ (fieldVal pf raw "error_rate").2 ∨ w ∈ (fieldVal pf raw "throughput_rps").2
      ∨ w ∈ (fieldVal pf raw "cpu_percent").2 ∨ w ∈ (fieldVal pf raw "memory_percent").2
      ∨ w ∈ (fieldVal pf raw "gc_pause_ms").2 := by
    simpa [ _dict_to_metrics, List.mem_append, or_assoc] using hw
  rcases hw' with hw' | hw' | hw' | hw' | hw' | hw' | hw' | hw' | hw'
  · exact ⟨"p50_ms", fieldVal_missing_shape pf raw _ hnum w hw'⟩
  · exact ⟨"p90_ms", fieldVal_missing_shape pf raw _ hnum w hw'⟩
  · exact ⟨"p95_ms", fieldVal_missing_shape pf raw _ hnum w hw'⟩
  · exact ⟨"p99_ms", fieldVal_missing_shape pf raw _ hnum w hw'⟩
  · exact ⟨"error_rate", fieldVal_missing_shape pf raw _ hnum w hw'⟩
  · exact ⟨"throughput_rps", fieldVal_missing_shape pf raw _ hnum w hw'⟩
  · exact ⟨"cpu_percent", fieldVal_missing_shape pf raw _ hnum w hw'⟩
  · exact ⟨"memory_percent", fieldVal_missing_shape pf raw _ hnum w hw'⟩
  · exact ⟨"gc_pause_ms", fieldVal_missing_shape pf raw _ hnum w hw'⟩

/-- Setting a different key does not change a dict lookup. -/
theorem dictGet_dictSet_ne (kvs : List (String × Value)) (k f : String) (v : Value)
    (hk : k ≠ f) : dictGet (dictSet kvs k v) f = dictGet kvs f := by
  unfold dictGet dictSet
  by_cases hc : kvs.any (fun kv => kv.1 == k) = true
  · rw [if_pos hc, List.find?_map]
    have hpred : ((fun kv : String × Value => kv.1 == f)
          ∘ fun kv => if kv.1 == k then (k, v) else kv)
        = fun kv : String × Value => kv.1 == f := by
      funext kv
      by_cases hik : (kv.1 == k) = true
      · have h1 : kv.1 = k := by simpa using hik
        simp [Function.comp, hik, h1]
      · simp [Function.comp, hik]
    rw [hpred]
    rcases hf0 : kvs.find? (fun kv => kv.1 == f) with _ | kv0
    · rw [hf0]; rfl
    · have h1 : kv0.1 = f := by simpa using List.find?_some hf0
      have hk0 : (kv0.1 == k) = false := by
        rw [h1]
        exact beq_eq_false_iff_ne.mpr (Ne.symm hk)
      rw [hf0]
      simp only [Option.map_some']
      rw [show (if (kv0.1 == k) = true then (k, v) else kv0) = kv0 from by
        rw [hk0]; simp]
  · rw [if_neg hc, List.find?_append]
    have hkf : (k == f) = false := beq_eq_false_iff_ne.mpr hk
    have h2 : [(k, v)].find? (fun kv => kv.1 == f) = none := by
      simp [List.find?, hkf]
    rw [h2, Option.or_none]

/-- When every cell of the row destined for a recognized column fails the
float coercion, that column never enters the CSV dict. -/
theorem csvFold_absent (pf : String → Option ℚ) (f : String) :
    ∀ (row : List (String × String)) (acc : List (String × Value)),
      (∀ k v, (k, v) ∈ row → pyStrip k = f → pf v = none) →
      dictGet acc f = none →
      dictGet (row.foldl (csvStep pf) acc) f = none := by
  intro row
  induction row with
  | nil => exact fun acc _ h => h
  | cons kv0 row ih =>
    intro acc hall hacc
    rw [List.foldl_cons]
    refine ih _ (fun k v hkv hst => hall k v (List.mem_cons_of_mem _ hkv) hst) ?_
    simp only [csvStep]
    by_cases hk : _METRIC_FIELDS.contains (pyStrip kv0.1) = true
    · rw [if_pos hk]
      rcases hpf : pf kv0.2 with _ | q
      · exact hacc
      · have hne : pyStrip kv0.1 ≠ f := by
          intro heq
          have h0 := hall kv0.1 kv0.2 (List.mem_cons_self _ _) heq
          rw [h0] at hpf
          cases hpf
        rw [dictGet_dictSet_ne acc _ f _ hne]
        exact hacc
    · rw [if_neg hk]
      exact hacc

/-- A field absent from the dict ends up null in the MetricsSummary. -/
theorem dict_to_metrics_absent (pf : String → Option ℚ)
    (raw : List (String × Value)) (f : String) (hf : f ∈ _METRIC_FIELDS)
    (hg : dictGet raw f = none) :
    msField f ( _dict_to_metrics pf raw).1 = none := by
  have hfv : (fieldVal pf raw f).1 = none := by
    unfold fieldVal
    rw [hg]
  simp only [ _METRIC_FIELDS, List.mem_cons, List.not_mem_nil, or_false] at hf
  rcases hf with rfl | rfl | rfl | rfl | rfl | rfl | rfl | rfl | rfl <;>
    simp [msField, _dict_to_metrics, hfv]

/-- A present, non-null, non-coercible JSON value produces exactly the
non-numeric warning in fieldVal. -/
theorem fieldVal_nonnumeric (pf : String → Option ℚ)
    (raw : List (String × Value)) (f : String) (v : Value)
    (hg : dictGet raw f = some v) (hnull : v ≠ Value.null)
    (hc : coerceFloat pf v = none) :
    (fieldVal pf raw f).2 = ["non-numeric value for " ++ f ++ ": " ++ pyRepr v] := by
  unfold fieldVal
  rw [hg]
  rcases v with _ | b | q | s | xs | kvs
  · exact absurd rfl hnull
  · simp [coerceFloat] at hc
  · simp [coerceFloat] at hc
  · simp [hc]
  · rfl
  · rfl

/-- The JSON loading path surfaces the non-numeric warning through
_dict_to_metrics. -/
theorem json_nonnumeric_warns (pf : String → Option ℚ)
    (raw : List (String × Value)) (f : String) (v : Value)
    (hf : f ∈ _METRIC_FIELDS) (hg : dictGet raw f = some v)
    (hnull : v ≠ Value.null) (hc : coerceFloat pf v = none) :
    ("non-numeric value for " ++ f ++ ": " ++ pyRepr v) ∈ ( _dict_to_metrics pf raw).2 := by
  have hfv := fieldVal_nonnumeric pf raw f v hg hnull hc
  simp only [ _METRIC_FIELDS, List.mem_cons, List.not_mem_nil, or_false] at hf
  rcases hf with rfl | rfl | rfl | rfl | rfl | rfl | rfl | rfl | rfl <;>
    simp [ _dict_to_metrics, hfv]

/-- C9: CSV loading consults only the first data row, ignores
unrecognized columns, and silently drops a recognized column whose value
fails float coercion: the field is null in the result and every CSV
warning has the missing-field shape, never the non-numeric shape; JSON
loading, in contrast, emits the explicit non-numeric warning for a
present, non-null, non-coercible value. -/
theorem csv_loading_asymmetry (pf : String → Option ℚ) :
    (∀ (r : List (String × String)) rs,
        _load_csv_rows pf (r :: rs) = _load_csv_rows pf [r]) ∧
    (∀ row, _load_csv_rows pf [row]
        = _load_csv_rows pf [row.filter fun kv => _METRIC_FIELDS.contains (pyStrip kv.1)]) ∧
    (∀ rows m ws, _load_csv_rows pf rows = .ok (m, ws) →
        ∀ w ∈ ws, ∃ f, w = "missing field: " ++ f) ∧
    (∀ row f, f ∈ _METRIC_FIELDS →
        (∀ k v, (k, v) ∈ row → pyStrip k = f → pf v = none) →
        ∀ m ws, _load_csv_rows pf [row] = .ok (m, ws) → msField f m = none) ∧
    (∀ raw f v, f ∈ _METRIC_FIELDS → dictGet raw f = some v → v ≠ Value.null →
        coerceFloat pf v = none →
        ("non-numeric value for " ++ f ++ ": " ++ pyRepr v)
          ∈ ( _dict_to_metrics pf raw).2) := by
  refine ⟨fun r rs => rfl, ?_, ?_, ?_, ?_⟩
  · intro row
    simp only [ _load_csv_rows, csvRaw]
    rw [csvFold_filter]
  · intro rows m ws h
    rcases rows with _ | ⟨row, rest⟩
    · simp [ _load_csv_rows] at h
    · have h2 := h
      simp only [ _load_csv_rows] at h2
      have h' : _dict_to_metrics pf (csvRaw pf row) = (m, ws) := Except.ok.inj h2
      have hws : ( _dict_to_metrics pf (csvRaw pf row)).2 = ws := by rw [h']
      intro w hw
      exact dict_to_metrics_missing pf _
        (csvFold_num pf row [] (by simp)) w (hws.symm ▸ hw)
  · intro row f hf hall m ws h
    have h2 := h
    simp only [ _load_csv_rows] at h2
    have h' : _dict_to_metrics pf (csvRaw pf row) = (m, ws) := Except.ok.inj h2
    have hm : ( _dict_to_metrics pf (csvRaw pf row)).1 = m := by rw [h']
    have habs : dictGet (csvRaw pf row) f = none :=
      csvFold_absent pf f row [] hall rfl
    have hres := dict_to_metrics_absent pf (csvRaw pf row) f hf habs
    rw [hm] at hres
    exact hres
  · intro raw f v hf hg hnull hc
    exact json_nonnumeric_warns pf raw f v hf hg hnull hc

/-- Witness for C9 at a concrete row: a second data row is ignored, a
non-numeric p95_ms cell is dropped to null, and the JSON path warns on
the same value. -/
theorem csv_loading_asymmetry_witness :
    _load_csv_rows pf0 [[("p95_ms", "abc")], [("p95_ms", "12.5")]]
        = _load_csv_rows pf0 [[("p95_ms", "abc")]] ∧
    msField "p95_ms" ( _dict_to_metrics pf0 (csvRaw pf0 [("p95_ms", "abc")])).1 = none ∧
    ("non-numeric value for " ++ "p95_ms" ++ ": " ++ pyRepr (Value.str "abc"))
        ∈ ( _dict_to_metrics pf0 [("p95_ms", Value.str "abc")]).2 := by
  refine ⟨(csv_loading_asymmetry pf0).1 _ _, ?_, ?_⟩
  · refine (csv_loading_asymmetry pf0).2.2.2.1 [("p95_ms", "abc")] "p95_ms"
      (by decide) ?_ _ _ rfl
    intro k v hkv hst
    have := List.mem_singleton.mp hkv
    rw [Prod.mk.injEq] at this
    rw [this.2]
    decide
  · exact (csv_loading_asymmetry pf0).2.2.2.2 [("p95_ms", Value.str "abc")] "p95_ms"
      (Value.str "abc") (by decide) rfl (fun h => Value.noConfusion h) rfl

/-- C10: on a raw document whose traffic.burst_factor is null, profile
building terminates with the uncaught float() exception, not with a
ProfileValidationError: burst_factor is never validated and the coercion
failure escapes before the validation report is assembled. -/
theorem burst_factor_uncaught :
    _build_profile (fun _ => none) rawBurstNull =
      .error (.uncaught "uncaught TypeError/ValueError from float(traffic.burst_factor)") := by
  rfl

example :
    (interpret { p95_ms := some 900, p99_ms := some 1500, error_rate := some (5/1000) }
      { latency_ms := [("p95", 400), ("p99", 800)], error_rate := mkRat 1 100 }).status
      = "fail" := by decide

example :
    (interpret { cpu_percent := some 92 }
      { latency_ms := [("p95", 400), ("p99", 800)], error_rate := mkRat 1 100 }).status
      = "warning" := by decide

end Perf

